import Mathlib

/-!
# Verification of the mojo-lsp session layer

Shallow embedding of the document-session and bridge-lifecycle state of the
mojo-lsp repository (`src/lsp-client.ts`, `src/bridge/bridge-server.ts`,
`src/bridge/routes/diagnostics-routes.ts`), together with proofs of the
spec-level properties about document versioning, error handling, stop
idempotence, the single-session bridge lifecycle and the diagnostics buffer.

The JavaScript `Map` used for `openDocuments` and `diagnosticsBuffer` is
embedded as an association list with JS semantics: `set` replaces the value
in place when the key is present and appends otherwise, `get` returns the
first (unique) binding, `delete` removes the binding, `clear` empties the map.
-/

namespace MojoLsp

/-- JS `Map.get`: first binding of the key, if any. -/
def mapGet {α : Type} (k : String) : List (String × α) → Option α
  | [] => none
  | (k', v) :: rest => if k' = k then some v else mapGet k rest

/-- JS `Map.set`: replace in place when the key is present, append otherwise. -/
def mapSet {α : Type} (k : String) (v : α) : List (String × α) → List (String × α)
  | [] => [(k, v)]
  | (k', v') :: rest =>
      if k' = k then (k', v) :: rest else (k', v') :: mapSet k v rest

/-- JS `Map.delete`: remove the binding of the key. -/
def mapDelete {α : Type} (k : String) : List (String × α) → List (String × α)
  | [] => []
  | (k', v') :: rest =>
      if k' = k then rest else (k', v') :: mapDelete k rest

/-- Structure `DocumentInfo` from `src/lsp-client.ts`: the per-URI Document Record
`{uri, languageId, version, text}`. -/
structure DocumentInfo where
  uri : String
  languageId : String
  version : Nat
  text : String
deriving Repr, DecidableEq

/-- Opaque stand-in for the `InitializeResult` payload returned by the
language server's initialize handshake; the session layer never inspects it. -/
structure InitializeResult where
  raw : String
deriving Repr, DecidableEq

/-- The mutable fields of class `LSPClient` in `src/lsp-client.ts`.
Node handles (`process`, `socket`, `connection`) are embedded as Booleans
recording whether the field is non-null; `diagnosticsHandler` as whether a
handler is registered. -/
structure LSPClient where
  processAlive : Bool
  socketOpen : Bool
  connection : Bool
  serverCapabilities : Option InitializeResult
  openDocuments : List (String × DocumentInfo)
  diagnosticsHandler : Bool
deriving Repr, DecidableEq

/-- The protocol messages the session layer emits, as far as the claims
observe them. -/
inductive Notification where
  | didOpen (uri languageId : String) (version : Nat) (text : String)
  | didChange (uri : String) (version : Nat) (text : String)
  | didClose (uri : String)
  | shutdownRequest
  | exitNotification
deriving Repr, DecidableEq

/-- The errors thrown by the document operations of `LSPClient`:
`Error('Client not started')` and ``Error(`Document ${uri} is not open`)``
(the spec's `SessionNotStartedError` and `DocumentNotOpenError`). -/
inductive LSPError where
  | clientNotStarted
  | documentNotOpen (uri : String)
deriving Repr, DecidableEq

/-- Decidable equality for operation outcomes. -/
def exceptDecEq : (a b : Except LSPError Unit) → Decidable (a = b)
  | .ok (), .ok () => isTrue rfl
  | .ok (), .error _ => isFalse Except.noConfusion
  | .error _, .ok () => isFalse Except.noConfusion
  | .error e, .error e' =>
    if h : e = e' then isTrue (congrArg Except.error h)
    else isFalse (fun he => h (Except.error.inj he))

instance : DecidableEq (Except LSPError Unit) := exceptDecEq

/-- Result of one document operation: the client state afterwards, the
notifications written to the connection, and whether the call threw. -/
structure OpResult where
  state : LSPClient
  sent : List Notification
  outcome : Except LSPError Unit
deriving Repr, DecidableEq

/-- Method `LSPClient.openDocument` (src/lsp-client.ts:287-305): throw if the
connection is null; otherwise store a fresh record at version 1 and send a
didOpen notification with the same fields. -/
def openDocument (c : LSPClient) (uri languageId text : String) : OpResult :=
  if !c.connection then
    ⟨c, [], .error .clientNotStarted⟩
  else
    let doc : DocumentInfo := ⟨uri, languageId, 1, text⟩
    ⟨{ c with openDocuments := mapSet uri doc c.openDocuments },
     [.didOpen uri languageId doc.version text], .ok ()⟩

/-- Method `LSPClient.changeDocument` (src/lsp-client.ts:307-329): throw if the
connection is null or the URI has no record; otherwise increment the record's
version, store the new text, and send a didChange notification carrying the
incremented version and the full new text. -/
def changeDocument (c : LSPClient) (uri text : String) : OpResult :=
  if !c.connection then
    ⟨c, [], .error .clientNotStarted⟩
  else
    match mapGet uri c.openDocuments with
    | none => ⟨c, [], .error (.documentNotOpen uri)⟩
    | some doc =>
        let doc' : DocumentInfo := { doc with version := doc.version + 1, text := text }
        ⟨{ c with openDocuments := mapSet uri doc' c.openDocuments },
         [.didChange uri doc'.version text], .ok ()⟩

/-- Method `LSPClient.closeDocument` (src/lsp-client.ts:331-347): throw if the
connection is null or the URI has no record; otherwise send a didClose
notification and delete the record. -/
def closeDocument (c : LSPClient) (uri : String) : OpResult :=
  if !c.connection then
    ⟨c, [], .error .clientNotStarted⟩
  else
    match mapGet uri c.openDocuments with
    | none => ⟨c, [], .error (.documentNotOpen uri)⟩
    | some _ =>
        ⟨{ c with openDocuments := mapDelete uri c.openDocuments },
         [.didClose uri], .ok ()⟩

/-- Method `LSPClient.stop` (src/lsp-client.ts:437-488): if the connection is null
return immediately; otherwise send a shutdown request, send an exit
notification only when there is no socket (stdio mode), then destroy the
socket, dispose the connection and kill the process, nulling all three. -/
def stop (c : LSPClient) : LSPClient × List Notification :=
  if !c.connection then
    (c, [])
  else
    let sent := [Notification.shutdownRequest] ++
      (if !c.socketOpen then [Notification.exitNotification] else [])
    ({ c with socketOpen := false, connection := false, processAlive := false }, sent)

/-- The state of a client right after a successful `start()`: a live process,
a socket exactly in socket mode, a live connection, the captured capabilities,
and no documents touched (a freshly constructed client has none open). -/
def startedClient (socketMode : Bool) (caps : InitializeResult) : LSPClient :=
  { processAlive := true
    socketOpen := socketMode
    connection := true
    serverCapabilities := some caps
    openDocuments := []
    diagnosticsHandler := false }

/-- Iteration of `changeDocument` over a list of new texts, stopping at the first
error; collects the notifications in order. -/
def changeMany (c : LSPClient) (uri : String) : List String → OpResult
  | [] => ⟨c, [], .ok ()⟩
  | t :: rest =>
    let r := changeDocument c uri t
    match r.outcome with
    | .error e => ⟨r.state, r.sent, .error e⟩
    | .ok () =>
        let r' := changeMany r.state uri rest
        ⟨r'.state, r.sent ++ r'.sent, r'.outcome⟩

/-- The text held by the record after the changes `ts`, starting from text
`d`: the last element of `ts`, or `d` when there is none. -/
def lastText (d : String) : List String → String
  | [] => d
  | t :: rest => lastText t rest

/-- The didChange notifications produced by successful changes with texts
`ts`, starting from record version `v`: versions `v+1, v+2, …`. -/
def expectedChangeNotifs (uri : String) (v : Nat) : List String → List Notification
  | [] => []
  | t :: rest => .didChange uri (v + 1) t :: expectedChangeNotifs uri (v + 1) rest

/-! ## The Session Bridge (`src/bridge/bridge-server.ts`) -/

/-- Opaque stand-in for one diagnostic entry published by the server; the
bridge stores these lists verbatim and never inspects them. -/
structure Diagnostic where
  message : String
deriving Repr, DecidableEq

/-- Structure `BridgeState` from `src/bridge/bridge-types.ts`:
`{client, language, diagnosticsBuffer}`. -/
structure BridgeState where
  client : Option LSPClient
  language : Option String
  diagnosticsBuffer : List (String × List Diagnostic)
deriving Repr, DecidableEq

/-- The bridge state created by the `LSPBridgeServer` constructor:
no client, no language, empty diagnostics buffer. -/
def initialBridge : BridgeState := ⟨none, none, []⟩

/-- Outcome of the externally-visible effects inside the `/start` handler's
try block: `createLspClientForLanguage` may throw a `BadRequestError`
(unsupported language, missing backend field), `client.start()` may throw
(spawn or connect failure), or the handshake succeeds and yields the started
client's mode and capabilities. -/
inductive StartOutcome where
  | createFails
  | startFails
  | started (socketMode : Bool) (caps : InitializeResult)
deriving Repr, DecidableEq

/-- The reply of a bridge lifecycle route. -/
inductive BridgeReply where
  | alreadyRunning
  | errorThrown
  | capabilities (caps : InitializeResult)
  | success
deriving Repr, DecidableEq

/-- The `/start` handler (src/bridge/bridge-server.ts:218-241): if a client
already exists, reply 400 without touching anything; otherwise construct the
client, register the diagnostics handler and await `client.start()`; in the
catch block set `client` and `language` back to null and rethrow. -/
def bridgeStart (s : BridgeState) (language : String) (o : StartOutcome) :
    BridgeState × BridgeReply :=
  if s.client.isSome then
    (s, .alreadyRunning)
  else
    match o with
    | .createFails => ({ s with client := none, language := none }, .errorThrown)
    | .startFails => ({ s with client := none, language := none }, .errorThrown)
    | .started m caps =>
        ({ s with client := some (startedClient m caps), language := some language },
         .capabilities caps)

/-- The `/stop` handler (src/bridge/bridge-server.ts:243-260): if a client
exists, stop it, null out client and language and clear the diagnostics
buffer; reply success either way. -/
def bridgeStop (s : BridgeState) : BridgeState × BridgeReply :=
  match s.client with
  | some c =>
      -- `await state.client.stop()`: the stopped client is then discarded
      let _ := stop c
      ({ client := none, language := none, diagnosticsBuffer := [] }, .success)
  | none => (s, .success)

/-- The diagnostics handler registered by `/start`
(src/bridge/bridge-server.ts:230-232): `diagnosticsBuffer.set(uri, diagnostics)`. -/
def publishDiagnostics (s : BridgeState) (uri : String) (diags : List Diagnostic) :
    BridgeState :=
  { s with diagnosticsBuffer := mapSet uri diags s.diagnosticsBuffer }

/-- The `DELETE /diagnostics` handler
(src/bridge/routes/diagnostics-routes.ts:22-33): `diagnosticsBuffer.clear()`. -/
def clearDiagnostics (s : BridgeState) : BridgeState :=
  { s with diagnosticsBuffer := [] }

/-- One externally triggered bridge event: a lifecycle route call, a
diagnostics publication arriving from the active session's server, or an
explicit clear request. -/
inductive BridgeOp where
  | start (language : String) (o : StartOutcome)
  | stop
  | publish (uri : String) (diags : List Diagnostic)
  | clear
deriving Repr, DecidableEq

/-- Sequential bridge semantics: route handlers run one at a time, and a
diagnostics publication is delivered through the handler registered for the
currently active client, so it only lands while a session exists. -/
def bridgeStep (s : BridgeState) : BridgeOp → BridgeState
  | .start l o => (bridgeStart s l o).1
  | .stop => (bridgeStop s).1
  | .publish u d => if s.client.isSome then publishDiagnostics s u d else s
  | .clear => clearDiagnostics s

/-- The bridge state reached from the constructor state by a sequence of
events. -/
def runBridge (ops : List BridgeOp) : BridgeState :=
  ops.foldl bridgeStep initialBridge

/-! ## Map lemmas (JS `Map` semantics) -/

theorem mapGet_mapSet_self {α : Type} (k : String) (v : α) (l : List (String × α)) :
    mapGet k (mapSet k v l) = some v := by
  induction l with
  | nil => simp [mapGet, mapSet]
  | cons p rest ih =>
    obtain ⟨k', v'⟩ := p
    by_cases h : k' = k <;> simp [mapGet, mapSet, h, ih]

theorem mapGet_mapSet_ne {α : Type} {k' k : String} (h : k' ≠ k) (v : α)
    (l : List (String × α)) : mapGet k' (mapSet k v l) = mapGet k' l := by
  induction l with
  | nil =>
    simp only [mapSet, mapGet]
    rw [if_neg (fun hh => h hh.symm)]
  | cons p rest ih =>
    obtain ⟨a, b⟩ := p
    by_cases ha : a = k <;> by_cases ha' : a = k' <;>
      simp_all [mapGet, mapSet]

theorem mapGet_mapDelete_ne {α : Type} {k' k : String} (h : k' ≠ k)
    (l : List (String × α)) : mapGet k' (mapDelete k l) = mapGet k' l := by
  induction l with
  | nil => simp [mapDelete]
  | cons p rest ih =>
    obtain ⟨a, b⟩ := p
    by_cases ha : a = k <;> by_cases ha' : a = k' <;>
      simp_all [mapGet, mapDelete]

theorem mapGet_eq_none_of_not_mem {α : Type} {k : String} {l : List (String × α)}
    (h : k ∉ l.map Prod.fst) : mapGet k l = none := by
  induction l with
  | nil => simp [mapGet]
  | cons p rest ih =>
    obtain ⟨a, b⟩ := p
    simp only [List.map_cons, List.mem_cons] at h
    push_neg at h
    simp only [mapGet]
    rw [if_neg (fun hh => h.1 hh.symm)]
    exact ih h.2

theorem mapGet_mapDelete_self {α : Type} {k : String} {l : List (String × α)}
    (h : (l.map Prod.fst).Nodup) : mapGet k (mapDelete k l) = none := by
  induction l with
  | nil => simp [mapDelete, mapGet]
  | cons p rest ih =>
    obtain ⟨a, b⟩ := p
    simp only [List.map_cons, List.nodup_cons] at h
    by_cases ha : a = k
    · subst ha
      simp [mapDelete, mapGet_eq_none_of_not_mem h.1]
    · simp [mapDelete, mapGet, ha, ih h.2]

theorem mapSet_mapSet_self {α : Type} (k : String) (a b : α)
    (l : List (String × α)) : mapSet k b (mapSet k a l) = mapSet k b l := by
  induction l with
  | nil => simp [mapSet]
  | cons p rest ih =>
    obtain ⟨k', v'⟩ := p
    by_cases h : k' = k <;> simp [mapSet, h, ih]

/-! ## Versioning lemmas -/

/-- Behaviour of `changeMany` on a client with a live connection and an open
record: every change succeeds, the version advances by one per change, the
final text is the last change's text, and the notifications carry the
successive versions. -/
theorem changeMany_spec (uri : String) (ts : List String) :
    ∀ (c : LSPClient) (doc : DocumentInfo),
    c.connection = true →
    mapGet uri c.openDocuments = some doc →
    (changeMany c uri ts).outcome = .ok () ∧
    (changeMany c uri ts).state.connection = true ∧
    mapGet uri (changeMany c uri ts).state.openDocuments =
      some ⟨doc.uri, doc.languageId, doc.version + ts.length, lastText doc.text ts⟩ ∧
    (changeMany c uri ts).sent = expectedChangeNotifs uri doc.version ts := by
  induction ts with
  | nil =>
    intro c doc hconn hdoc
    simp [changeMany, expectedChangeNotifs, lastText, hconn, hdoc]
  | cons t rest ih =>
    intro c doc hconn hdoc
    have hstep : changeDocument c uri t =
        ⟨{ c with openDocuments :=
             mapSet uri ⟨doc.uri, doc.languageId, doc.version + 1, t⟩ c.openDocuments },
         [.didChange uri (doc.version + 1) t], .ok ()⟩ := by
      simp [changeDocument, hconn, hdoc]
    have ih' := ih
      { c with openDocuments :=
          mapSet uri ⟨doc.uri, doc.languageId, doc.version + 1, t⟩ c.openDocuments }
      ⟨doc.uri, doc.languageId, doc.version + 1, t⟩
      hconn (mapGet_mapSet_self uri _ c.openDocuments)
    refine ⟨?_, ?_, ?_, ?_⟩
    · simp [changeMany, hstep, ih'.1]
    · simp [changeMany, hstep, ih'.1, ih'.2.1]
    · simp only [changeMany, hstep, ih'.1]
      simp [ih'.2.2.1, lastText, DocumentInfo.mk.injEq]
      omega
    · simp [changeMany, hstep, ih'.1, ih'.2.2.2, expectedChangeNotifs]

/-- Index form of `expectedChangeNotifs`: the `i`-th notification carries
version `v + 1 + i` and the `i`-th text. -/
theorem expectedChangeNotifs_getElem (uri : String) (v : Nat) (ts : List String)
    (i : Nat) :
    (expectedChangeNotifs uri v ts)[i]? =
      ts[i]?.map (fun t => .didChange uri (v + 1 + i) t) := by
  induction ts generalizing v i with
  | nil => simp [expectedChangeNotifs]
  | cons t rest ih =>
    cases i with
    | zero => simp [expectedChangeNotifs]
    | succ n =>
      simp only [expectedChangeNotifs, List.getElem?_cons_succ, ih (v + 1) n]
      have h : v + 1 + 1 + n = v + 1 + (n + 1) := by omega
      rw [h]

/-! ## Bridge invariant: an idle bridge has an empty diagnostics buffer -/

/-- Whenever the bridge holds no client, its diagnostics buffer is empty. -/
def IdleEmpty (s : BridgeState) : Prop :=
  s.client = none → s.diagnosticsBuffer = []

theorem bridgeStep_idleEmpty (s : BridgeState) (op : BridgeOp) (h : IdleEmpty s) :
    IdleEmpty (bridgeStep s op) := by
  cases op with
  | start l o =>
    by_cases hc : s.client.isSome
    · simpa [bridgeStep, bridgeStart, hc] using h
    · cases o <;> simp_all [bridgeStep, bridgeStart, IdleEmpty]
  | stop =>
    cases hc : s.client <;> simp_all [bridgeStep, bridgeStop, IdleEmpty]
  | publish u d =>
    by_cases hc : s.client.isSome
    · intro h0
      simp [bridgeStep, hc, publishDiagnostics] at h0
      simp [h0] at hc
    · simpa [bridgeStep, hc] using h
  | clear =>
    intro _
    simp [bridgeStep, clearDiagnostics]

theorem runBridge_idleEmpty (ops : List BridgeOp) : IdleEmpty (runBridge ops) := by
  have main : ∀ (l : List BridgeOp) (s : BridgeState),
      IdleEmpty s → IdleEmpty (l.foldl bridgeStep s) := by
    intro l
    induction l with
    | nil => intro s h; exact h
    | cons op rest ih => intro s h; exact ih _ (bridgeStep_idleEmpty s op h)
  exact main ops initialBridge (fun _ => rfl)

/-! ## Concrete fixtures for witnesses -/

/-- Sample capabilities payload. -/
def sampleCaps : InitializeResult := ⟨"caps"⟩

/-- A stdio-mode client after a successful start. -/
def sampleStdioClient : LSPClient := startedClient false sampleCaps

/-- A socket-mode client after a successful start. -/
def sampleSocketClient : LSPClient := startedClient true sampleCaps

/-- A started stdio client with one document open at version 3. -/
def sampleOpenClient : LSPClient :=
  { startedClient false sampleCaps with
      openDocuments := [("file:///a.ts", ⟨"file:///a.ts", "typescript", 3, "x=1"⟩)] }

/-- A client that was never started (all handles null). -/
def sampleUnstartedClient : LSPClient :=
  { processAlive := false, socketOpen := false, connection := false,
    serverCapabilities := none, openDocuments := [], diagnosticsHandler := false }

/-- A bridge holding a running session. -/
def sampleRunningBridge : BridgeState :=
  ⟨some sampleStdioClient, some "typescript", []⟩

/-- An idle bridge. -/
def sampleIdleBridge : BridgeState := ⟨none, none, []⟩

/-! ## Claims -/

/-- C1: while a session is already running (`state.client` non-null), the
`/start` route replies with an error and leaves the bridge state — client,
language and diagnostics buffer — entirely unchanged, whatever the requested
backend and whatever would have happened in the try block, so no second
client or transport is ever constructed and at most one non-empty session
record exists. -/
theorem bridge_start_rejected_when_running (s : BridgeState) (language : String)
    (o : StartOutcome) (hrun : s.client.isSome = true) :
    bridgeStart s language o = (s, .alreadyRunning) := by
  simp [bridgeStart, hrun]

theorem bridge_start_rejected_when_running_witness :
    sampleRunningBridge.client.isSome = true ∧
    bridgeStart sampleRunningBridge "python" .createFails =
      (sampleRunningBridge, .alreadyRunning) :=
  ⟨rfl, bridge_start_rejected_when_running sampleRunningBridge "python" .createFails rfl⟩

/-- C2: on a started client, `open(uri, languageId, text)` succeeds, sends a
didOpen at version 1, and any number of subsequent `change(uri, …)` calls
all succeed, leaving the record at version exactly `1 + N` after `N`
changes, with the `i`-th change notification carrying version `2 + i` — the
record's version at the time that notification was sent. -/
theorem open_change_version_tracking (c : LSPClient) (uri languageId text : String)
    (ts : List String) (hconn : c.connection = true) :
    (openDocument c uri languageId text).outcome = .ok () ∧
    (openDocument c uri languageId text).sent = [.didOpen uri languageId 1 text] ∧
    (changeMany (openDocument c uri languageId text).state uri ts).outcome = .ok () ∧
    (mapGet uri
        (changeMany (openDocument c uri languageId text).state uri ts).state.openDocuments).map
      DocumentInfo.version = some (1 + ts.length) ∧
    ∀ i : Nat,
      (changeMany (openDocument c uri languageId text).state uri ts).sent[i]? =
        ts[i]?.map (fun t' => .didChange uri (2 + i) t') := by
  have hopen : openDocument c uri languageId text =
      ⟨{ c with openDocuments := mapSet uri ⟨uri, languageId, 1, text⟩ c.openDocuments },
       [.didOpen uri languageId 1 text], .ok ()⟩ := by
    simp [openDocument, hconn]
  have hspec := changeMany_spec uri ts
    { c with openDocuments := mapSet uri ⟨uri, languageId, 1, text⟩ c.openDocuments }
    ⟨uri, languageId, 1, text⟩ hconn (mapGet_mapSet_self uri _ c.openDocuments)
  refine ⟨by simp [hopen], by simp [hopen], by simp [hopen, hspec.1], ?_, ?_⟩
  · simp only [hopen]
    simp [hspec.2.2.1]
  · intro i
    simp only [hopen]
    simp [hspec.2.2.2, expectedChangeNotifs_getElem]

theorem open_change_version_tracking_witness :
    sampleStdioClient.connection = true ∧
    (mapGet "file:///a.ts"
        (changeMany (openDocument sampleStdioClient "file:///a.ts" "typescript" "x=1").state
          "file:///a.ts" ["x=2", "x=3"]).state.openDocuments).map
      DocumentInfo.version = some (1 + (["x=2", "x=3"] : List String).length) :=
  ⟨rfl, (open_change_version_tracking sampleStdioClient "file:///a.ts" "typescript" "x=1"
    ["x=2", "x=3"] rfl).2.2.2.1⟩

/-- C3: on a started client, `change` or `close` for a URI with no open
Document Record throws the document-not-open error, returning the state
unchanged and sending no notification. -/
theorem change_close_unknown_uri_fails (c : LSPClient) (uri text : String)
    (hconn : c.connection = true)
    (hnone : mapGet uri c.openDocuments = none) :
    changeDocument c uri text = ⟨c, [], .error (.documentNotOpen uri)⟩ ∧
    closeDocument c uri = ⟨c, [], .error (.documentNotOpen uri)⟩ := by
  constructor <;> simp [changeDocument, closeDocument, hconn, hnone]

theorem change_close_unknown_uri_fails_witness :
    sampleStdioClient.connection = true ∧
    mapGet "file:///missing.ts" sampleStdioClient.openDocuments = none ∧
    changeDocument sampleStdioClient "file:///missing.ts" "y" =
      ⟨sampleStdioClient, [], .error (.documentNotOpen "file:///missing.ts")⟩ :=
  ⟨rfl, rfl,
    (change_close_unknown_uri_fails sampleStdioClient "file:///missing.ts" "y" rfl rfl).1⟩

/-- C4: when `close(uri)` succeeds, the Document Record for that URI is gone
from the document map (the map's keys are unique, as in a JS `Map`), so a
subsequent `change(uri, …)` fails with the document-not-open error and does
not resurrect the record. -/
theorem close_removes_record_no_resurrection (c : LSPClient) (uri text : String)
    (hnodup : (c.openDocuments.map Prod.fst).Nodup)
    (hok : (closeDocument c uri).outcome = .ok ()) :
    mapGet uri (closeDocument c uri).state.openDocuments = none ∧
    changeDocument (closeDocument c uri).state uri text =
      ⟨(closeDocument c uri).state, [], .error (.documentNotOpen uri)⟩ := by
  by_cases hconn : c.connection = true
  · cases hdoc : mapGet uri c.openDocuments with
    | none => simp [closeDocument, hconn, hdoc] at hok
    | some d =>
      have hclose : closeDocument c uri =
          ⟨{ c with openDocuments := mapDelete uri c.openDocuments },
           [.didClose uri], .ok ()⟩ := by
        simp [closeDocument, hconn, hdoc]
      have hget : mapGet uri (mapDelete uri c.openDocuments) = none :=
        mapGet_mapDelete_self hnodup
      constructor
      · simp [hclose, hget]
      · simp [hclose, changeDocument, hconn, hget]
  · have hf : c.connection = false := by simpa using hconn
    simp [closeDocument, hf] at hok

theorem close_removes_record_no_resurrection_witness :
    (sampleOpenClient.openDocuments.map Prod.fst).Nodup ∧
    (closeDocument sampleOpenClient "file:///a.ts").outcome = .ok () ∧
    mapGet "file:///a.ts"
      (closeDocument sampleOpenClient "file:///a.ts").state.openDocuments = none :=
  ⟨by decide, by decide,
    (close_removes_record_no_resurrection sampleOpenClient "file:///a.ts" "y"
      (by decide) (by decide)).1⟩

/-- C5: the bridge's diagnostics buffer maps a URI to exactly the most
recently published diagnostics list — publishing `a` then `b` for the same
URI is the same as publishing only `b`, never an append — and the buffer is
empty after the `/stop` route (from any state the bridge can reach from its
constructor state) and after an explicit `DELETE /diagnostics`. -/
theorem diagnostics_buffer_replace_and_clear (s : BridgeState) (uri : String)
    (a b : List Diagnostic) (ops : List BridgeOp) :
    mapGet uri (publishDiagnostics s uri b).diagnosticsBuffer = some b ∧
    publishDiagnostics (publishDiagnostics s uri a) uri b = publishDiagnostics s uri b ∧
    (bridgeStop (runBridge ops)).1.diagnosticsBuffer = [] ∧
    (clearDiagnostics s).diagnosticsBuffer = [] := by
  refine ⟨?_, ?_, ?_, rfl⟩
  · simp [publishDiagnostics, mapGet_mapSet_self]
  · simp [publishDiagnostics, mapSet_mapSet_self]
  · cases hc : (runBridge ops).client with
    | some c => simp [bridgeStop, hc]
    | none =>
      have hbuf := runBridge_idleEmpty ops hc
      simp [bridgeStop, hc, hbuf]

/-- C6: when the `/start` handler's try block fails — client construction
throws or `client.start()` throws — the bridge discards the partial state:
client and language are back to null, the reply is the rethrown error, and
the bridge is idle again. -/
theorem bridge_start_failure_stays_idle (s : BridgeState) (language : String)
    (o : StartOutcome) (hidle : s.client = none)
    (hfail : o = .createFails ∨ o = .startFails) :
    (bridgeStart s language o).1.client = none ∧
    (bridgeStart s language o).1.language = none ∧
    (bridgeStart s language o).2 = .errorThrown := by
  rcases hfail with h | h <;> subst h <;> simp [bridgeStart, hidle]

theorem bridge_start_failure_stays_idle_witness :
    sampleIdleBridge.client = none ∧
    (bridgeStart sampleIdleBridge "rust" .startFails).1.client = none :=
  ⟨rfl, (bridge_start_failure_stays_idle sampleIdleBridge "rust" .startFails rfl
    (Or.inr rfl)).1⟩

/-- C7: `stop()` is idempotent — when the connection is already null (closed
or never started) it is a no-op returning the state unchanged and sending
nothing, and a second consecutive `stop()` after any `stop()` is such a
no-op, so two stops are equivalent to one. -/
theorem stop_idempotent (c : LSPClient) :
    (c.connection = false → stop c = (c, [])) ∧
    stop (stop c).1 = ((stop c).1, []) := by
  constructor
  · intro h
    simp [stop, h]
  · by_cases h : c.connection = true
    · simp [stop, h]
    · have hf : c.connection = false := by simpa using h
      simp [stop, hf]

theorem stop_idempotent_witness :
    sampleUnstartedClient.connection = false ∧
    stop sampleUnstartedClient = (sampleUnstartedClient, []) ∧
    stop (stop sampleStdioClient).1 = ((stop sampleStdioClient).1, []) :=
  ⟨rfl, (stop_idempotent sampleUnstartedClient).1 rfl, (stop_idempotent sampleStdioClient).2⟩

/-- C8: stopping a started client sends the shutdown request first, sends
the exit notification exactly when there is no socket (process/stdio mode,
skipped for socket mode), and in both modes ends with the socket destroyed,
the connection disposed and the process killed. -/
theorem stop_exit_only_process_mode (c : LSPClient) (hconn : c.connection = true) :
    (Notification.exitNotification ∈ (stop c).2 ↔ c.socketOpen = false) ∧
    (stop c).2.head? = some Notification.shutdownRequest ∧
    (stop c).1.socketOpen = false ∧
    (stop c).1.connection = false ∧
    (stop c).1.processAlive = false := by
  by_cases hs : c.socketOpen = true
  · simp [stop, hconn, hs]
  · have hf : c.socketOpen = false := by simpa using hs
    simp [stop, hconn, hf]

theorem stop_exit_only_process_mode_witness :
    sampleSocketClient.connection = true ∧
    ¬ Notification.exitNotification ∈ (stop sampleSocketClient).2 ∧
    sampleStdioClient.connection = true ∧
    Notification.exitNotification ∈ (stop sampleStdioClient).2 :=
  ⟨rfl,
    fun hmem => by
      have h := ((stop_exit_only_process_mode sampleSocketClient rfl).1).mp hmem
      exact absurd h (by decide),
    rfl,
    ((stop_exit_only_process_mode sampleStdioClient rfl).1).mpr rfl⟩

/-- C9: `open` on a URI that already has an open record does not error; it
unconditionally installs a fresh record at version 1 with the new languageId
and text, discarding the prior record's version. -/
theorem reopen_replaces_record (c : LSPClient) (uri languageId text : String)
    (d0 : DocumentInfo) (hconn : c.connection = true)
    (_halready : mapGet uri c.openDocuments = some d0) :
    (openDocument c uri languageId text).outcome = .ok () ∧
    (openDocument c uri languageId text).sent = [.didOpen uri languageId 1 text] ∧
    mapGet uri (openDocument c uri languageId text).state.openDocuments =
      some ⟨uri, languageId, 1, text⟩ := by
  refine ⟨?_, ?_, ?_⟩ <;> simp [openDocument, hconn, mapGet_mapSet_self]

theorem reopen_replaces_record_witness :
    sampleOpenClient.connection = true ∧
    mapGet "file:///a.ts" sampleOpenClient.openDocuments =
      some ⟨"file:///a.ts", "typescript", 3, "x=1"⟩ ∧
    mapGet "file:///a.ts"
        (openDocument sampleOpenClient "file:///a.ts" "javascript" "z").state.openDocuments =
      some ⟨"file:///a.ts", "javascript", 1, "z"⟩ :=
  ⟨rfl, by decide,
    (reopen_replaces_record sampleOpenClient "file:///a.ts" "javascript" "z"
      ⟨"file:///a.ts", "typescript", 3, "x=1"⟩ rfl (by decide)).2.2⟩

/-- C10: for distinct URIs `v ≠ u`, each of `open(u)`, `change(u)` and
`close(u)` leaves the record of `v` (by lookup), the server-capabilities
snapshot and the diagnostics-handler registration unchanged. -/
theorem document_ops_frame (c : LSPClient) (u v languageId text ct : String)
    (hne : v ≠ u) :
    (mapGet v (openDocument c u languageId text).state.openDocuments =
        mapGet v c.openDocuments ∧
      (openDocument c u languageId text).state.serverCapabilities = c.serverCapabilities ∧
      (openDocument c u languageId text).state.diagnosticsHandler = c.diagnosticsHandler) ∧
    (mapGet v (changeDocument c u ct).state.openDocuments = mapGet v c.openDocuments ∧
      (changeDocument c u ct).state.serverCapabilities = c.serverCapabilities ∧
      (changeDocument c u ct).state.diagnosticsHandler = c.diagnosticsHandler) ∧
    (mapGet v (closeDocument c u).state.openDocuments = mapGet v c.openDocuments ∧
      (closeDocument c u).state.serverCapabilities = c.serverCapabilities ∧
      (closeDocument c u).state.diagnosticsHandler = c.diagnosticsHandler) := by
  by_cases hconn : c.connection = true
  · cases hdoc : mapGet u c.openDocuments with
    | none =>
      simp [openDocument, changeDocument, closeDocument, hconn, hdoc,
        mapGet_mapSet_ne hne]
    | some d =>
      simp [openDocument, changeDocument, closeDocument, hconn, hdoc,
        mapGet_mapSet_ne hne, mapGet_mapDelete_ne hne]
  · have hf : c.connection = false := by simpa using hconn
    simp [openDocument, changeDocument, closeDocument, hf]

theorem document_ops_frame_witness :
    ("file:///b.ts" : String) ≠ "file:///a.ts" ∧
    mapGet "file:///b.ts"
        (openDocument sampleOpenClient "file:///a.ts" "ts" "x").state.openDocuments =
      mapGet "file:///b.ts" sampleOpenClient.openDocuments :=
  ⟨by decide,
    (document_ops_frame sampleOpenClient "file:///a.ts" "file:///b.ts" "ts" "x" "y"
      (by decide)).1.1⟩

end MojoLsp
